import Mathlib

/-!
Verification of the off-policy actor-critic training core of the
Reinforcement-Learning-Robotic-Arm repository (SAC in
`Soft_Actor-Critic/sac_torch.py`, TD3 in `TD3/td3_torch.py`).

The PyTorch code is shallowly embedded over the reals.  Tensors that the
claims quantify over per-dimension or per-batch-row are modelled as
functions `Fin n → ℝ`; the neural networks and their optimizer steps are
external collaborators (their bodies live in `networks.py` /
`sac_networks.py`, outside the repository slice) and are passed in as
opaque parameter-update functions.
-/

namespace RLArm

/-- `torch.clamp(x, lo, hi)`: `min (max x lo) hi`. -/
def tclamp (x lo hi : ℝ) : ℝ := min (max x lo) hi

/-- Log-density of a scalar Normal distribution, the contract of
`torch.distributions.Normal(mean, std).log_prob(x)`. -/
noncomputable def normalLogPdf (mean std x : ℝ) : ℝ :=
  -((x - mean) ^ 2 / (2 * std ^ 2)) - Real.log std - Real.log (Real.sqrt (2 * Real.pi))

/-- The tanh change-of-variables correction subtracted per action dimension:
`log(action_scale * (1 - tanh(x)^2) + 1e-6)`
(`sac_torch.py` lines 118, 171, 196). -/
noncomputable def tanhCorrection (scale x : ℝ) : ℝ :=
  Real.log (scale * (1 - Real.tanh x ^ 2) + 1e-6)

/-- The log-probability returned by `SACAgent.choose_action` (lines 116-119)
and computed identically at both sampling sites inside `SACAgent.update`
(lines 170-172 and 195-197): per dimension, the Normal log-density of the
pre-squash sample minus the tanh correction, then summed over dimensions. -/
noncomputable def sacLogProb (n : ℕ) (scale : ℝ) (mean std x : Fin n → ℝ) : ℝ :=
  let lp := fun d => normalLogPdf (mean d) (std d) (x d)
  let lp2 := fun d => lp d - tanhCorrection scale (x d)
  ∑ d, lp2 d

/-- One batch row of the SAC critic regression target
(`sac_torch.py` lines 174-176):
`target_Q = min(tQ1, tQ2) - exp(log_alpha) * log_prob;`
`target_Q = reward + (1 - done) * gamma * target_Q`. -/
noncomputable def sacCriticTarget (gamma logAlpha reward tq1 tq2 lp : ℝ)
    (done : Bool) : ℝ :=
  let targetQ := min tq1 tq2 - Real.exp logAlpha * lp
  reward + (1 - (if done then (1 : ℝ) else 0)) * gamma * targetQ

/-- The SAC actor loss (`sac_torch.py` line 202):
`(exp(log_alpha) * log_prob - Q_new).mean()` over the batch. -/
noncomputable def sacActorLoss (B : ℕ) (logAlpha : ℝ) (lp qmin : Fin B → ℝ) : ℝ :=
  (∑ b, (Real.exp logAlpha * lp b - qmin b)) / B

/-- The SAC entropy-coefficient loss (`sac_torch.py` line 211):
`-(log_alpha * (log_prob + target_entropy).detach()).mean()`.
The detached factor is data here, so the loss is a function of `logAlpha`
with the batch log-probabilities held constant. -/
noncomputable def sacAlphaLoss (B : ℕ) (logAlpha tEnt : ℝ) (lp : Fin B → ℝ) : ℝ :=
  -((∑ b, logAlpha * (lp b + tEnt)) / B)

/-- Target-entropy selection in `SACAgent.__init__` (lines 63-66):
if the argument is `None` it defaults to `-n_actions`. -/
noncomputable def sacTargetEntropy (t : Option ℝ) (nActions : ℕ) : ℝ :=
  match t with
  | none => -(nActions : ℝ)
  | some v => v

/-- `SACAgent.__init__` line 69: `log_alpha = torch.zeros(1, ...)`. -/
def sacInitLogAlpha : ℝ := 0

/-- The next action computed in `Agent.learn` (`td3_torch.py` lines 145-149):
the TARGET actor is evaluated at `next_state`, a single clipped noise scalar
is added to every dimension, and the result is clamped to
`[min_action[0], max_action[0]]`. -/
noncomputable def td3TargetActions (n : ℕ) {σ : Type}
    (targetActorFwd : σ → Fin n → ℝ) (nextState : σ) (eps lo hi : ℝ) :
    Fin n → ℝ :=
  let ta := targetActorFwd nextState
  let ta2 := fun d => ta d + tclamp eps (-0.5) 0.5
  fun d => tclamp (ta2 d) lo hi

/-- The next-action computation as the spec sentence for claim C3 words it:
evaluating the CURRENT actor at `next_state`, then adding the clipped noise
and clamping.  Written from the spec to be compared with
`td3TargetActions`, which is written from the source. -/
noncomputable def td3TargetActionsSpec (n : ℕ) {σ : Type}
    (actorFwd : σ → Fin n → ℝ) (nextState : σ) (eps lo hi : ℝ) :
    Fin n → ℝ :=
  fun d => tclamp (actorFwd nextState d + tclamp eps (-0.5) 0.5) lo hi

/-- `Agent.choose_action` (`td3_torch.py` lines 98-109): during warmup (and
not validating) `mu` is a fresh Normal draw, otherwise the actor output;
then one scalar Normal draw `eps` is added to every dimension and the result
is clamped to `[min_action[0], max_action[0]]`.  Dimensions are `Fin (n+1)`
so that index `0` — the only bound the code reads — exists. -/
noncomputable def td3ChooseAction (n : ℕ) (warmup : Bool)
    (warmupDraw actorOut : Fin (n + 1) → ℝ) (eps : ℝ)
    (lowB highB : Fin (n + 1) → ℝ) : Fin (n + 1) → ℝ :=
  let mu := if warmup then warmupDraw else actorOut
  fun d => tclamp (mu d + eps) (lowB 0) (highB 0)

/-- `choose_action` as claim C4 words it: independent per-dimension noise,
clamped element-wise to the per-dimension declared bounds.  Written from the
spec to be compared with `td3ChooseAction`, which is written from the
source. -/
noncomputable def td3ChooseActionSpec (n : ℕ) (warmup : Bool)
    (warmupDraw actorOut : Fin (n + 1) → ℝ) (epsVec : Fin (n + 1) → ℝ)
    (lowB highB : Fin (n + 1) → ℝ) : Fin (n + 1) → ℝ :=
  let mu := if warmup then warmupDraw else actorOut
  fun d => tclamp (mu d + epsVec d) (lowB d) (highB d)

/-- Modelled from the spec: the replay buffers (`sac_buffer.py`,
`buffer.py`) are outside the repository slice.  Per spec section 3, the
write counter never resets and the logical number of valid entries held by
the buffer is `min(count, capacity)`; SAC's gate reads this via
`len(self.memory)`. -/
def bufferLen (count capacity : ℕ) : ℕ := min count capacity

/-- Mutable state of `SACAgent` relevant to `update` and `load_models`.
Network parameter tensors are opaque families `ι → ℝ`; `memCount` and
`memSize` are the replay buffer's write counter and capacity. -/
structure SACState (ι : Type) where
  memCount : ℕ
  memSize : ℕ
  batchSize : ℕ
  tau : ℝ
  actorP : ι → ℝ
  criticP : ι → ℝ
  criticTargetP : ι → ℝ
  logAlpha : ℝ
  alpha : ℝ

/-- The soft update applied to the SAC target critic
(`sac_torch.py` lines 221-222):
`target.data = tau * critic.data + (1 - tau) * target.data` per tensor. -/
noncomputable def sacSoftTarget {ι : Type} (tau : ℝ) (criticP targetP : ι → ℝ) :
    ι → ℝ :=
  fun i => tau * criticP i + (1 - tau) * targetP i

/-- `SACAgent.update` (`sac_torch.py` lines 150-222) at the orchestration
level.  `criticStep`, `actorStep` and `alphaStep` are the opaque
one-optimizer-step contracts of the external networks.  If the buffer holds
fewer than `batch_size` entries the call returns the state untouched (line
156); otherwise the critic, actor and log-alpha steps run, `alpha` is
re-derived as `exp(log_alpha)` (line 218), and the target critic is
soft-updated from the just-updated critic (lines 221-222). -/
noncomputable def sacUpdate {ι : Type}
    (criticStep actorStep : (ι → ℝ) → ι → ℝ) (alphaStep : ℝ → ℝ)
    (st : SACState ι) : SACState ι :=
  if bufferLen st.memCount st.memSize < st.batchSize then st
  else
    let criticP := criticStep st.criticP
    let actorP := actorStep st.actorP
    let logAlpha := alphaStep st.logAlpha
    { st with
      criticP := criticP
      actorP := actorP
      logAlpha := logAlpha
      alpha := Real.exp logAlpha
      criticTargetP := sacSoftTarget st.tau criticP st.criticTargetP }

/-- `SACAgent.load_models` (`sac_torch.py` lines 234-247).  Each argument is
the outcome of one `torch.load`/`load_state_dict` in the `try` block, in
program order (`none` = that load raised).  Python's `try/except` keeps
every assignment made before the first raise, so the match chain commits
the loads one at a time; on full success `alpha` is re-derived from the
loaded `log_alpha` (line 244). -/
noncomputable def sacLoadModels {ι : Type}
    (a c t : Option (ι → ℝ)) (la : Option ℝ) (st : SACState ι) : SACState ι :=
  match a with
  | none => st
  | some av =>
    match c with
    | none => { st with actorP := av }
    | some cv =>
      match t with
      | none => { st with actorP := av, criticP := cv }
      | some tv =>
        match la with
        | none => { st with actorP := av, criticP := cv, criticTargetP := tv }
        | some lav =>
          { st with actorP := av, criticP := cv, criticTargetP := tv,
                    logAlpha := lav, alpha := Real.exp lav }

/-- Mutable state of the TD3 `Agent` relevant to `learn`,
`update_network_parameters` and `load_models`.  `memCounter` is the replay
buffer's monotone write counter (`mem_counter`), `memSize` its capacity. -/
structure TD3State (ι : Type) where
  memCounter : ℕ
  memSize : ℕ
  batchSize : ℕ
  learnStepCounter : ℕ
  updateActorIter : ℕ
  tau : ℝ
  actorP : ι → ℝ
  criticP1 : ι → ℝ
  criticP2 : ι → ℝ
  targetActorP : ι → ℝ
  targetCriticP1 : ι → ℝ
  targetCriticP2 : ι → ℝ

/-- `Agent.update_network_parameters` (`td3_torch.py` lines 193-222): every
target tensor becomes `tau * online + (1 - tau) * target`; the constructor
calls this with `tau = 1` (line 81) for hard initialization. -/
noncomputable def updateNetworkParameters {ι : Type} (tau : ℝ)
    (st : TD3State ι) : TD3State ι :=
  { st with
    targetCriticP1 := fun i => tau * st.criticP1 i + (1 - tau) * st.targetCriticP1 i
    targetCriticP2 := fun i => tau * st.criticP2 i + (1 - tau) * st.targetCriticP2 i
    targetActorP := fun i => tau * st.actorP i + (1 - tau) * st.targetActorP i }

/-- `Agent.learn` (`td3_torch.py` lines 125-191) at the orchestration level.
Returns untouched if `mem_counter < batch_size * 10` (line 134).  Otherwise
both critics take one optimizer step and `learn_step_counter` is
incremented; if the incremented counter is not a multiple of
`update_actor_interval` the call returns (line 182), else the actor takes
one step and `update_network_parameters()` runs with the agent's `tau`. -/
noncomputable def td3Learn {ι : Type}
    (criticStep1 criticStep2 actorStep : (ι → ℝ) → ι → ℝ)
    (st : TD3State ι) : TD3State ι :=
  if st.memCounter < st.batchSize * 10 then st
  else
    let st1 := { st with
      criticP1 := criticStep1 st.criticP1
      criticP2 := criticStep2 st.criticP2
      learnStepCounter := st.learnStepCounter + 1 }
    if st1.learnStepCounter % st.updateActorIter ≠ 0 then st1
    else updateNetworkParameters st.tau { st1 with actorP := actorStep st1.actorP }

/-- `Agent.load_models` (`td3_torch.py` lines 236-250): six sequential
checkpoint loads in a `try` block — actor, target actor, critic 1,
critic 2, target critic 1, target critic 2 — with a bare `except` that
keeps whatever was already assigned. -/
noncomputable def td3LoadModels {ι : Type}
    (a ta c1 c2 tc1 tc2 : Option (ι → ℝ)) (st : TD3State ι) : TD3State ι :=
  match a with
  | none => st
  | some av =>
    match ta with
    | none => { st with actorP := av }
    | some tav =>
      match c1 with
      | none => { st with actorP := av, targetActorP := tav }
      | some c1v =>
        match c2 with
        | none => { st with actorP := av, targetActorP := tav, criticP1 := c1v }
        | some c2v =>
          match tc1 with
          | none => { st with actorP := av, targetActorP := tav,
                              criticP1 := c1v, criticP2 := c2v }
          | some tc1v =>
            match tc2 with
            | none => { st with actorP := av, targetActorP := tav,
                                criticP1 := c1v, criticP2 := c2v,
                                targetCriticP1 := tc1v }
            | some tc2v =>
              { st with actorP := av, targetActorP := tav,
                        criticP1 := c1v, criticP2 := c2v,
                        targetCriticP1 := tc1v, targetCriticP2 := tc2v }

/-- Concrete TD3 state for exercising `learn` past the counter gate while the
buffer holds fewer than `batch_size * 10` entries. -/
def c6Td3St : TD3State Unit :=
  { memCounter := 10, memSize := 5, batchSize := 1, learnStepCounter := 0,
    updateActorIter := 2, tau := 0, actorP := fun _ => 0, criticP1 := fun _ => 0,
    criticP2 := fun _ => 0, targetActorP := fun _ => 0,
    targetCriticP1 := fun _ => 0, targetCriticP2 := fun _ => 0 }

/-- Concrete SAC state below the `batch_size` gate. -/
def c6SacSt : SACState Unit :=
  { memCount := 3, memSize := 5, batchSize := 4, tau := 0,
    actorP := fun _ => 0, criticP := fun _ => 0, criticTargetP := fun _ => 0,
    logAlpha := 0, alpha := 0 }

/-- Concrete TD3 state below the `batch_size * 10` counter gate. -/
def c6GateTd3St : TD3State Unit :=
  { memCounter := 5, memSize := 100, batchSize := 1, learnStepCounter := 0,
    updateActorIter := 2, tau := 0, actorP := fun _ => 0, criticP1 := fun _ => 0,
    criticP2 := fun _ => 0, targetActorP := fun _ => 0,
    targetCriticP1 := fun _ => 0, targetCriticP2 := fun _ => 0 }

/-- Concrete TD3 state past the counter gate with the incremented learn-step
counter landing on the actor-update cadence. -/
def c7Td3St : TD3State Unit :=
  { memCounter := 10, memSize := 100, batchSize := 1, learnStepCounter := 1,
    updateActorIter := 2, tau := 0, actorP := fun _ => 0, criticP1 := fun _ => 0,
    criticP2 := fun _ => 0, targetActorP := fun _ => 0,
    targetCriticP1 := fun _ => 0, targetCriticP2 := fun _ => 0 }

/-- Concrete SAC state past the `batch_size` gate. -/
def c7SacSt : SACState Unit :=
  { memCount := 5, memSize := 5, batchSize := 4, tau := 0,
    actorP := fun _ => 0, criticP := fun _ => 0, criticTargetP := fun _ => 0,
    logAlpha := 0, alpha := 0 }

/-- Concrete SAC state for the `load_models` scenarios. -/
def c9SacSt : SACState Unit :=
  { memCount := 0, memSize := 0, batchSize := 0, tau := 0,
    actorP := fun _ => 0, criticP := fun _ => 0, criticTargetP := fun _ => 0,
    logAlpha := 0, alpha := 0 }

/-- Concrete TD3 state for the `load_models` scenarios. -/
def c9Td3St : TD3State Unit :=
  { memCounter := 0, memSize := 0, batchSize := 0, learnStepCounter := 0,
    updateActorIter := 2, tau := 0, actorP := fun _ => 0, criticP1 := fun _ => 0,
    criticP2 := fun _ => 0, targetActorP := fun _ => 0,
    targetCriticP1 := fun _ => 0, targetCriticP2 := fun _ => 0 }

/-- `SACAgent.__init__` line 25: the `alpha` keyword argument's default. -/
noncomputable def sacDefaultAlpha : ℝ := 0.4

/-- Concrete SAC state past the gate, for the alpha-irrelevance scenario. -/
def c10SacSt : SACState Unit :=
  { memCount := 5, memSize := 5, batchSize := 1, tau := 0,
    actorP := fun _ => 0, criticP := fun _ => 0, criticTargetP := fun _ => 0,
    logAlpha := 0, alpha := 0 }

/-- The square of the real hyperbolic tangent is strictly below one. -/
theorem tanh_sq_lt_one (x : ℝ) : Real.tanh x ^ 2 < 1 := by
  rw [Real.tanh_eq_sinh_div_cosh, div_pow,
    div_lt_one (pow_pos (Real.cosh_pos x) 2), Real.cosh_sq]
  linarith

/-- `tclamp` lands in the clamping interval whenever it is nonempty. -/
theorem tclamp_mem (x lo hi : ℝ) (h : lo ≤ hi) :
    lo ≤ tclamp x lo hi ∧ tclamp x lo hi ≤ hi :=
  ⟨le_min (le_max_right x lo) h, min_le_right _ _⟩

/-- Claim C1: the log-probability returned at every SAC sampling site
(`choose_action` and both sites in `update`) equals the Normal log-density
of the pre-squash sample summed over dimensions minus, summed over every
dimension, `log(action_scale * (1 - tanh(x_d)^2) + 1e-6)`; and for a
nonnegative scale each log argument stays in `[1e-6, scale + 1e-6]`, so the
correction term is bounded even as `|tanh(x_d)|` approaches 1. -/
theorem C1_sac_log_prob_correction (n : ℕ) (scale : ℝ) (mean std x : Fin n → ℝ)
    (hs : 0 ≤ scale) :
    sacLogProb n scale mean std x =
      (∑ d, normalLogPdf (mean d) (std d) (x d)) -
        ∑ d, Real.log (scale * (1 - Real.tanh (x d) ^ 2) + 1e-6) ∧
    ∀ d, (1e-6 : ℝ) ≤ scale * (1 - Real.tanh (x d) ^ 2) + 1e-6 ∧
      scale * (1 - Real.tanh (x d) ^ 2) + 1e-6 ≤ scale + 1e-6 := by
  constructor
  · simp only [sacLogProb, tanhCorrection]
    exact Finset.sum_sub_distrib
  · intro d
    have h1 := tanh_sq_lt_one (x d)
    have hsq := sq_nonneg (Real.tanh (x d))
    have h0 : 0 ≤ scale * (1 - Real.tanh (x d) ^ 2) := by
      apply mul_nonneg hs
      linarith
    have h2 : scale * (1 - Real.tanh (x d) ^ 2) ≤ scale := by
      nlinarith
    constructor <;> linarith

theorem C1_sac_log_prob_correction_witness :
    (0 : ℝ) ≤ 1 ∧
    (sacLogProb 1 1 (fun _ => 0) (fun _ => 0) (fun _ => 0) =
      (∑ _d : Fin 1, normalLogPdf 0 0 0) -
        ∑ _d : Fin 1, Real.log (1 * (1 - Real.tanh 0 ^ 2) + 1e-6) ∧
     ∀ _d : Fin 1, (1e-6 : ℝ) ≤ 1 * (1 - Real.tanh 0 ^ 2) + 1e-6 ∧
       1 * (1 - Real.tanh 0 ^ 2) + 1e-6 ≤ 1 + 1e-6) :=
  ⟨zero_le_one,
   C1_sac_log_prob_correction 1 1 (fun _ => 0) (fun _ => 0) (fun _ => 0) zero_le_one⟩

/-- Claim C2: in every SAC update past the buffer gate the critic regression
target (computed inside `torch.no_grad()`, lines 162-176) is, per batch row,
`reward + gamma * b` with `b` the element-wise minimum of the two target
critic outputs minus `exp(log_alpha)` times the next log-probability, and
`b` zeroed on rows whose done flag is set. -/
theorem C2_sac_critic_target (gamma logAlpha reward tq1 tq2 lp : ℝ) (done : Bool) :
    sacCriticTarget gamma logAlpha reward tq1 tq2 lp done =
      reward + gamma * (if done then 0 else min tq1 tq2 - Real.exp logAlpha * lp) := by
  cases done <;> simp [sacCriticTarget]

/-- Claim C3 counterexample: with the current actor returning 0 and the
target actor returning 1 on every state, zero noise and bounds `[-2, 2]`,
`Agent.learn` computes next action 1 — the target actor's output — while
the claim's current-actor computation yields 0. -/
theorem C3_counterexample :
    td3TargetActions 1 (fun _ : Unit => fun _ => (1 : ℝ)) () 0 (-2) 2 (0 : Fin 1) = 1 ∧
    td3TargetActionsSpec 1 (fun _ : Unit => fun _ => (0 : ℝ)) () 0 (-2) 2 (0 : Fin 1) = 0 ∧
    td3TargetActions 1 (fun _ : Unit => fun _ => (1 : ℝ)) () 0 (-2) 2 (0 : Fin 1) ≠
      td3TargetActionsSpec 1 (fun _ : Unit => fun _ => (0 : ℝ)) () 0 (-2) 2 (0 : Fin 1) := by
  refine ⟨?_, ?_, ?_⟩ <;>
    norm_num [td3TargetActions, td3TargetActionsSpec, tclamp, max_def, min_def]

/-- Claim C3 amended: the next action used for TD3 target computation is
produced by evaluating the TARGET actor at `next_state`, adding the
Normal(0, 0.2) smoothing noise draw clipped to `[-0.5, 0.5]`, and clamping
to the action bounds; the clipped noise indeed lies in `[-0.5, 0.5]` and
the result lies within the clamping bounds. -/
theorem C3_td3_target_action_amended (n : ℕ) {σ : Type}
    (tFwd : σ → Fin n → ℝ) (s : σ) (eps lo hi : ℝ) (h : lo ≤ hi) :
    (∀ d, td3TargetActions n tFwd s eps lo hi d =
      tclamp (tFwd s d + tclamp eps (-0.5) 0.5) lo hi) ∧
    (∀ d, lo ≤ td3TargetActions n tFwd s eps lo hi d ∧
      td3TargetActions n tFwd s eps lo hi d ≤ hi) ∧
    (-0.5 ≤ tclamp eps (-0.5) 0.5 ∧ tclamp eps (-0.5) 0.5 ≤ 0.5) := by
  refine ⟨fun d => rfl, fun d => tclamp_mem _ _ _ h, tclamp_mem _ _ _ (by norm_num)⟩

theorem C3_td3_target_action_amended_witness :
    (0 : ℝ) ≤ 1 ∧
    ((∀ d : Fin 1, td3TargetActions 1 (fun _ : Unit => fun _ => (1 : ℝ)) () 0 0 1 d =
        tclamp ((1 : ℝ) + tclamp 0 (-0.5) 0.5) 0 1) ∧
     (∀ d : Fin 1, (0 : ℝ) ≤ td3TargetActions 1 (fun _ : Unit => fun _ => (1 : ℝ)) () 0 0 1 d ∧
        td3TargetActions 1 (fun _ : Unit => fun _ => (1 : ℝ)) () 0 0 1 d ≤ 1) ∧
     ((-0.5 : ℝ) ≤ tclamp 0 (-0.5) 0.5 ∧ tclamp 0 (-0.5) 0.5 ≤ 0.5)) :=
  ⟨zero_le_one,
   C3_td3_target_action_amended 1 (fun _ : Unit => fun _ => (1 : ℝ)) () 0 0 1 zero_le_one⟩

/-- Claim C4 counterexample: two action dimensions with per-dimension bounds
`low = (0, -10)`, `high = (1, 10)`, actor output `(0, 5)` and zero noise.
`Agent.choose_action` clamps every dimension to the dimension-0 bounds, so
dimension 1 comes out as 1, while the claim's per-dimension clamping would
return 5. -/
theorem C4_counterexample :
    td3ChooseAction 1 false ![0, 0] ![0, 5] 0 ![0, -10] ![1, 10] (1 : Fin 2) = 1 ∧
    td3ChooseActionSpec 1 false ![0, 0] ![0, 5] (fun _ => 0) ![0, -10] ![1, 10] (1 : Fin 2) = 5 ∧
    td3ChooseAction 1 false ![0, 0] ![0, 5] 0 ![0, -10] ![1, 10] (1 : Fin 2) ≠
      td3ChooseActionSpec 1 false ![0, 0] ![0, 5] (fun _ => 0) ![0, -10] ![1, 10] (1 : Fin 2) := by
  refine ⟨?_, ?_, ?_⟩ <;>
    norm_num [td3ChooseAction, td3ChooseActionSpec, tclamp, max_def, min_def]

/-- Claim C4 amended: every `choose_action` result — whether `mu` came from
the actor or from the warmup draw — is perturbed by a single shared
Normal(0, noise_std) scalar draw added to every dimension, then clamped
element-wise to the bounds of action dimension 0 (`min_action[0]`,
`max_action[0]`); the result lies within those bounds whenever they are
ordered. -/
theorem C4_td3_choose_action_amended (n : ℕ) (warmup : Bool)
    (wDraw aOut : Fin (n + 1) → ℝ) (eps : ℝ) (lowB highB : Fin (n + 1) → ℝ)
    (h : lowB 0 ≤ highB 0) :
    (∀ d, td3ChooseAction n warmup wDraw aOut eps lowB highB d =
      tclamp ((if warmup then wDraw d else aOut d) + eps) (lowB 0) (highB 0)) ∧
    (∀ d, lowB 0 ≤ td3ChooseAction n warmup wDraw aOut eps lowB highB d ∧
      td3ChooseAction n warmup wDraw aOut eps lowB highB d ≤ highB 0) := by
  constructor
  · intro d
    cases warmup <;> rfl
  · intro d
    exact tclamp_mem _ _ _ h

theorem C4_td3_choose_action_amended_witness :
    (fun _ : Fin 1 => (0 : ℝ)) 0 ≤ (fun _ : Fin 1 => (1 : ℝ)) 0 ∧
    ((∀ d : Fin 1, td3ChooseAction 0 false (fun _ => 0) (fun _ => 0) 0
        (fun _ => 0) (fun _ => 1) d =
        tclamp ((if false then (0 : ℝ) else 0) + 0) 0 1) ∧
     (∀ d : Fin 1, (0 : ℝ) ≤ td3ChooseAction 0 false (fun _ => 0) (fun _ => 0) 0
        (fun _ => 0) (fun _ => 1) d ∧
        td3ChooseAction 0 false (fun _ => 0) (fun _ => 0) 0
          (fun _ => 0) (fun _ => 1) d ≤ 1)) :=
  ⟨zero_le_one,
   C4_td3_choose_action_amended 0 false (fun _ => 0) (fun _ => 0) 0
     (fun _ => 0) (fun _ => 1) zero_le_one⟩

/-- Claim C5: for every parameter tensor the soft update sets
`target := tau * online + (1 - tau) * target` element-wise (TD3's three
target networks and SAC's target critic); with `tau = 0` every target is
unchanged and with `tau = 1` every target becomes exactly the online
parameters, the hard initialization used at construction
(`td3_torch.py` line 81). -/
theorem C5_soft_update (ι : Type) (tau : ℝ) (st : TD3State ι) :
    (∀ i, (updateNetworkParameters tau st).targetCriticP1 i =
        tau * st.criticP1 i + (1 - tau) * st.targetCriticP1 i) ∧
    (∀ i, (updateNetworkParameters tau st).targetCriticP2 i =
        tau * st.criticP2 i + (1 - tau) * st.targetCriticP2 i) ∧
    (∀ i, (updateNetworkParameters tau st).targetActorP i =
        tau * st.actorP i + (1 - tau) * st.targetActorP i) ∧
    (updateNetworkParameters 0 st).targetCriticP1 = st.targetCriticP1 ∧
    (updateNetworkParameters 0 st).targetCriticP2 = st.targetCriticP2 ∧
    (updateNetworkParameters 0 st).targetActorP = st.targetActorP ∧
    (updateNetworkParameters 1 st).targetCriticP1 = st.criticP1 ∧
    (updateNetworkParameters 1 st).targetCriticP2 = st.criticP2 ∧
    (updateNetworkParameters 1 st).targetActorP = st.actorP ∧
    (∀ cp tp : ι → ℝ, ∀ i, sacSoftTarget tau cp tp i = tau * cp i + (1 - tau) * tp i) ∧
    (∀ cp tp : ι → ℝ, sacSoftTarget 0 cp tp = tp ∧ sacSoftTarget 1 cp tp = cp) := by
  refine ⟨fun i => rfl, fun i => rfl, fun i => rfl, ?_, ?_, ?_, ?_, ?_, ?_,
    fun cp tp i => rfl, fun cp tp => ⟨?_, ?_⟩⟩ <;>
    · funext i
      simp [updateNetworkParameters, sacSoftTarget]

/-- Claim C6 counterexample: a TD3 agent with buffer capacity 5,
`batch_size = 1` and write counter 10 holds only `min(10, 5) = 5 < 10`
transitions, yet `learn` passes its `mem_counter < batch_size * 10` gate and
mutates the critic parameters — the call is not a no-op. -/
theorem C6_counterexample :
    bufferLen c6Td3St.memCounter c6Td3St.memSize < c6Td3St.batchSize * 10 ∧
    (td3Learn (fun _ _ => 1) (fun _ _ => 1) (fun _ _ => 1) c6Td3St).criticP1 () ≠
      c6Td3St.criticP1 () := by
  constructor
  · decide
  · norm_num [td3Learn, c6Td3St]

/-- Claim C6 amended: the gates are counter gates — SAC is a silent no-op
while the buffer holds fewer than `batch_size` entries, and TD3 is a silent
no-op while the monotone write counter (not the held-entry count) is below
`batch_size * 10`; in both cases every network, target and entropy field of
the state is left exactly at its pre-call value. -/
theorem C6_update_gate_noop (ι : Type)
    (cs as : (ι → ℝ) → ι → ℝ) (als : ℝ → ℝ)
    (c1 c2 a3 : (ι → ℝ) → ι → ℝ) (stS : SACState ι) (stT : TD3State ι)
    (hS : bufferLen stS.memCount stS.memSize < stS.batchSize)
    (hT : stT.memCounter < stT.batchSize * 10) :
    sacUpdate cs as als stS = stS ∧ td3Learn c1 c2 a3 stT = stT := by
  constructor
  · simp [sacUpdate, hS]
  · simp [td3Learn, hT]

theorem C6_update_gate_noop_witness :
    bufferLen c6SacSt.memCount c6SacSt.memSize < c6SacSt.batchSize ∧
    c6GateTd3St.memCounter < c6GateTd3St.batchSize * 10 ∧
    (sacUpdate (fun _ _ => 1) (fun _ _ => 1) (fun _ => 1) c6SacSt = c6SacSt ∧
     td3Learn (fun _ _ => 1) (fun _ _ => 1) (fun _ _ => 1) c6GateTd3St = c6GateTd3St) :=
  ⟨by decide, by decide,
   C6_update_gate_noop Unit (fun _ _ => 1) (fun _ _ => 1) (fun _ => 1)
     (fun _ _ => 1) (fun _ _ => 1) (fun _ _ => 1) c6SacSt c6GateTd3St
     (by decide) (by decide)⟩

/-- Claim C7: past the gates, TD3 updates the actor and soft-updates all
target networks exactly on the calls where the incremented learn-step
counter is a multiple of `update_actor_interval` (both together, both
skipped otherwise), while SAC soft-updates its target critic on every
gated call, from the freshly stepped critic. -/
theorem C7_update_cadence (ι : Type)
    (c1 c2 as : (ι → ℝ) → ι → ℝ) (cs aas : (ι → ℝ) → ι → ℝ) (als : ℝ → ℝ)
    (stT : TD3State ι) (stS : SACState ι)
    (hT : ¬ stT.memCounter < stT.batchSize * 10)
    (hS : ¬ bufferLen stS.memCount stS.memSize < stS.batchSize) :
    ((td3Learn c1 c2 as stT).actorP =
      if (stT.learnStepCounter + 1) % stT.updateActorIter = 0
      then as stT.actorP else stT.actorP) ∧
    ((td3Learn c1 c2 as stT).targetActorP =
      if (stT.learnStepCounter + 1) % stT.updateActorIter = 0
      then fun i => stT.tau * as stT.actorP i + (1 - stT.tau) * stT.targetActorP i
      else stT.targetActorP) ∧
    ((td3Learn c1 c2 as stT).targetCriticP1 =
      if (stT.learnStepCounter + 1) % stT.updateActorIter = 0
      then fun i => stT.tau * c1 stT.criticP1 i + (1 - stT.tau) * stT.targetCriticP1 i
      else stT.targetCriticP1) ∧
    ((td3Learn c1 c2 as stT).targetCriticP2 =
      if (stT.learnStepCounter + 1) % stT.updateActorIter = 0
      then fun i => stT.tau * c2 stT.criticP2 i + (1 - stT.tau) * stT.targetCriticP2 i
      else stT.targetCriticP2) ∧
    ((td3Learn c1 c2 as stT).criticP1 = c1 stT.criticP1) ∧
    ((sacUpdate cs aas als stS).criticTargetP =
      sacSoftTarget stS.tau (cs stS.criticP) stS.criticTargetP) := by
  by_cases h : (stT.learnStepCounter + 1) % stT.updateActorIter = 0 <;>
    refine ⟨?_, ?_, ?_, ?_, ?_, ?_⟩ <;>
    simp [td3Learn, sacUpdate, updateNetworkParameters, hT, hS, h]

theorem C7_update_cadence_witness :
    ¬ c7Td3St.memCounter < c7Td3St.batchSize * 10 ∧
    ¬ bufferLen c7SacSt.memCount c7SacSt.memSize < c7SacSt.batchSize ∧
    (((td3Learn (fun _ _ => 1) (fun _ _ => 1) (fun _ _ => 1) c7Td3St).actorP =
       if (c7Td3St.learnStepCounter + 1) % c7Td3St.updateActorIter = 0
       then (fun _ _ => (1 : ℝ)) c7Td3St.actorP else c7Td3St.actorP) ∧
     ((td3Learn (fun _ _ => 1) (fun _ _ => 1) (fun _ _ => 1) c7Td3St).targetActorP =
       if (c7Td3St.learnStepCounter + 1) % c7Td3St.updateActorIter = 0
       then fun i => c7Td3St.tau * (fun _ _ => (1 : ℝ)) c7Td3St.actorP i +
         (1 - c7Td3St.tau) * c7Td3St.targetActorP i
       else c7Td3St.targetActorP) ∧
     ((td3Learn (fun _ _ => 1) (fun _ _ => 1) (fun _ _ => 1) c7Td3St).targetCriticP1 =
       if (c7Td3St.learnStepCounter + 1) % c7Td3St.updateActorIter = 0
       then fun i => c7Td3St.tau * (fun _ _ => (1 : ℝ)) c7Td3St.criticP1 i +
         (1 - c7Td3St.tau) * c7Td3St.targetCriticP1 i
       else c7Td3St.targetCriticP1) ∧
     ((td3Learn (fun _ _ => 1) (fun _ _ => 1) (fun _ _ => 1) c7Td3St).targetCriticP2 =
       if (c7Td3St.learnStepCounter + 1) % c7Td3St.updateActorIter = 0
       then fun i => c7Td3St.tau * (fun _ _ => (1 : ℝ)) c7Td3St.criticP2 i +
         (1 - c7Td3St.tau) * c7Td3St.targetCriticP2 i
       else c7Td3St.targetCriticP2) ∧
     ((td3Learn (fun _ _ => 1) (fun _ _ => 1) (fun _ _ => 1) c7Td3St).criticP1 =
       (fun _ _ => (1 : ℝ)) c7Td3St.criticP1) ∧
     ((sacUpdate (fun _ _ => 1) (fun _ _ => 1) (fun _ => 1) c7SacSt).criticTargetP =
       sacSoftTarget c7SacSt.tau ((fun _ _ => (1 : ℝ)) c7SacSt.criticP) c7SacSt.criticTargetP)) :=
  ⟨by decide, by decide,
   C7_update_cadence Unit (fun _ _ => 1) (fun _ _ => 1) (fun _ _ => 1)
     (fun _ _ => 1) (fun _ _ => 1) (fun _ => 1) c7Td3St c7SacSt
     (by decide) (by decide)⟩

/-- Claim C8: the SAC entropy-coefficient loss is
`-mean(log_alpha * (log_prob + target_entropy).detach())`, i.e. a linear
function of `log_alpha` alone whose derivative is the constant
`-mean(log_prob + target_entropy)` — the detached batch term — so its
gradient reaches only `log_alpha`; and the constructor's default target
entropy is `-n_actions`, equal to `-2` for `n_actions = 2`. -/
theorem C8_sac_alpha_loss (B : ℕ) (logAlpha tEnt x : ℝ) (lp : Fin B → ℝ) :
    sacAlphaLoss B logAlpha tEnt lp =
      logAlpha * (-((∑ b, (lp b + tEnt)) / B)) ∧
    HasDerivAt (fun a => sacAlphaLoss B a tEnt lp)
      (-((∑ b, (lp b + tEnt)) / B)) x ∧
    (∀ nA : ℕ, sacTargetEntropy none nA = -(nA : ℝ)) ∧
    sacTargetEntropy none 2 = -2 := by
  have key : ∀ a : ℝ, sacAlphaLoss B a tEnt lp =
      a * (-((∑ b, (lp b + tEnt)) / B)) := by
    intro a
    rw [sacAlphaLoss, ← Finset.mul_sum]
    ring
  refine ⟨key logAlpha, ?_, fun nA => rfl, ?_⟩
  · have hfun : (fun a => sacAlphaLoss B a tEnt lp) =
        fun a => a * (-((∑ b, (lp b + tEnt)) / B)) := funext key
    rw [hfun]
    exact hasDerivAt_mul_const _
  · show -((2 : ℕ) : ℝ) = -2
    norm_num

/-- Claim C9 counterexample: a SAC `load_models` call where the actor
checkpoint loads but the critic checkpoint fails leaves the agent with the
loaded actor parameters — the failing call is caught, but the resulting
state is not the pre-call (fresh-initialization) state. -/
theorem C9_counterexample :
    (sacLoadModels (some fun _ => (1 : ℝ)) none none none c9SacSt).actorP () = 1 ∧
    c9SacSt.actorP () = 0 ∧
    sacLoadModels (some fun _ => (1 : ℝ)) none none none c9SacSt ≠ c9SacSt := by
  refine ⟨rfl, rfl, fun h => ?_⟩
  have h2 := congrArg (fun s : SACState Unit => s.actorP ()) h
  norm_num [sacLoadModels, c9SacSt] at h2

/-- Claim C9 amended: a failing `load_models` never raises (the `except`
catches everything and prints a notice) and the loads commit in checkpoint
order up to the first failure: every component whose own or any earlier
checkpoint failed keeps its pre-call value, and if the FIRST checkpoint
fails the whole agent state is exactly its pre-call state.  Stated for the
SAC order (actor, critic, target critic, log-alpha — with `alpha` re-derived
only on full success) and the TD3 order (actor, target actor, critic 1,
critic 2, target critic 1, target critic 2). -/
theorem C9_load_models_amended (ι : Type)
    (a c t : Option (ι → ℝ)) (la : Option ℝ) (stS : SACState ι)
    (a2 ta c1 c2 tc1 tc2 : Option (ι → ℝ)) (stT : TD3State ι) :
    (a = none → sacLoadModels a c t la stS = stS) ∧
    (c = none → (sacLoadModels a c t la stS).criticP = stS.criticP ∧
      (sacLoadModels a c t la stS).criticTargetP = stS.criticTargetP ∧
      (sacLoadModels a c t la stS).logAlpha = stS.logAlpha ∧
      (sacLoadModels a c t la stS).alpha = stS.alpha) ∧
    (t = none → (sacLoadModels a c t la stS).criticTargetP = stS.criticTargetP ∧
      (sacLoadModels a c t la stS).logAlpha = stS.logAlpha ∧
      (sacLoadModels a c t la stS).alpha = stS.alpha) ∧
    (la = none → (sacLoadModels a c t la stS).logAlpha = stS.logAlpha ∧
      (sacLoadModels a c t la stS).alpha = stS.alpha) ∧
    (a2 = none → td3LoadModels a2 ta c1 c2 tc1 tc2 stT = stT) ∧
    (ta = none → (td3LoadModels a2 ta c1 c2 tc1 tc2 stT).targetActorP = stT.targetActorP ∧
      (td3LoadModels a2 ta c1 c2 tc1 tc2 stT).criticP1 = stT.criticP1 ∧
      (td3LoadModels a2 ta c1 c2 tc1 tc2 stT).criticP2 = stT.criticP2 ∧
      (td3LoadModels a2 ta c1 c2 tc1 tc2 stT).targetCriticP1 = stT.targetCriticP1 ∧
      (td3LoadModels a2 ta c1 c2 tc1 tc2 stT).targetCriticP2 = stT.targetCriticP2) ∧
    (c1 = none → (td3LoadModels a2 ta c1 c2 tc1 tc2 stT).criticP1 = stT.criticP1 ∧
      (td3LoadModels a2 ta c1 c2 tc1 tc2 stT).criticP2 = stT.criticP2 ∧
      (td3LoadModels a2 ta c1 c2 tc1 tc2 stT).targetCriticP1 = stT.targetCriticP1 ∧
      (td3LoadModels a2 ta c1 c2 tc1 tc2 stT).targetCriticP2 = stT.targetCriticP2) ∧
    (c2 = none → (td3LoadModels a2 ta c1 c2 tc1 tc2 stT).criticP2 = stT.criticP2 ∧
      (td3LoadModels a2 ta c1 c2 tc1 tc2 stT).targetCriticP1 = stT.targetCriticP1 ∧
      (td3LoadModels a2 ta c1 c2 tc1 tc2 stT).targetCriticP2 = stT.targetCriticP2) ∧
    (tc1 = none → (td3LoadModels a2 ta c1 c2 tc1 tc2 stT).targetCriticP1 = stT.targetCriticP1 ∧
      (td3LoadModels a2 ta c1 c2 tc1 tc2 stT).targetCriticP2 = stT.targetCriticP2) ∧
    (tc2 = none → (td3LoadModels a2 ta c1 c2 tc1 tc2 stT).targetCriticP2 = stT.targetCriticP2) := by
  refine ⟨?_, ?_, ?_, ?_, ?_, ?_, ?_, ?_, ?_, ?_⟩ <;> intro h <;> subst h
  · rfl
  · rcases a with _ | av <;> simp [sacLoadModels]
  · rcases a with _ | av <;> rcases c with _ | cv <;> simp [sacLoadModels]
  · rcases a with _ | av <;> rcases c with _ | cv <;> rcases t with _ | tv <;>
      simp [sacLoadModels]
  · rfl
  · rcases a2 with _ | av2 <;> simp [td3LoadModels]
  · rcases a2 with _ | av2 <;> rcases ta with _ | tav <;> simp [td3LoadModels]
  · rcases a2 with _ | av2 <;> rcases ta with _ | tav <;> rcases c1 with _ | c1v <;>
      simp [td3LoadModels]
  · rcases a2 with _ | av2 <;> rcases ta with _ | tav <;> rcases c1 with _ | c1v <;>
      rcases c2 with _ | c2v <;> simp [td3LoadModels]
  · rcases a2 with _ | av2 <;> rcases ta with _ | tav <;> rcases c1 with _ | c1v <;>
      rcases c2 with _ | c2v <;> rcases tc1 with _ | tc1v <;> simp [td3LoadModels]

theorem C9_load_models_amended_witness :
    sacLoadModels none none none none c9SacSt = c9SacSt ∧
    td3LoadModels none none none none none none c9Td3St = c9Td3St :=
  ⟨(C9_load_models_amended Unit none none none none c9SacSt
      none none none none none none c9Td3St).1 rfl,
   (C9_load_models_amended Unit none none none none c9SacSt
      none none none none none none c9Td3St).2.2.2.2.1 rfl⟩

/-- Claim C10: the entropy weight applied in the SAC critic target and in
the actor loss is `exp(log_alpha)`; with the constructor's
`log_alpha = 0` the initial effective weight is `exp 0 = 1`; and the stored
`alpha` attribute (constructor default 0.4) is never read by `update` —
overwriting it (e.g. with the default) does not change the update's result
on a gated call. -/
theorem C10_sac_alpha_unused (ι : Type) (gamma reward tq1 tq2 lp x : ℝ)
    (done : Bool) (B : ℕ) (lpv qv : Fin B → ℝ)
    (cs as : (ι → ℝ) → ι → ℝ) (als : ℝ → ℝ) (st : SACState ι)
    (h : ¬ bufferLen st.memCount st.memSize < st.batchSize) :
    sacCriticTarget gamma sacInitLogAlpha reward tq1 tq2 lp done =
      reward + (1 - (if done then (1 : ℝ) else 0)) * gamma * (min tq1 tq2 - 1 * lp) ∧
    sacActorLoss B sacInitLogAlpha lpv qv = (∑ b, (1 * lpv b - qv b)) / B ∧
    Real.exp sacInitLogAlpha = 1 ∧
    sacUpdate cs as als { st with alpha := x } = sacUpdate cs as als st := by
  refine ⟨?_, ?_, ?_, ?_⟩
  · simp [sacCriticTarget, sacInitLogAlpha, Real.exp_zero]
  · simp [sacActorLoss, sacInitLogAlpha, Real.exp_zero]
  · simp [sacInitLogAlpha, Real.exp_zero]
  · simp [sacUpdate, h]

theorem C10_sac_alpha_unused_witness :
    ¬ bufferLen c10SacSt.memCount c10SacSt.memSize < c10SacSt.batchSize ∧
    (sacCriticTarget 0 sacInitLogAlpha 0 0 0 0 false =
      0 + (1 - (if false then (1 : ℝ) else 0)) * 0 * (min 0 0 - 1 * 0) ∧
     sacActorLoss 1 sacInitLogAlpha (fun _ => 0) (fun _ => 0) =
      (∑ _b : Fin 1, ((1 : ℝ) * 0 - 0)) / ((1 : ℕ) : ℝ) ∧
     Real.exp sacInitLogAlpha = 1 ∧
     sacUpdate (fun _ _ => 1) (fun _ _ => 1) (fun _ => 1)
       { c10SacSt with alpha := sacDefaultAlpha } =
       sacUpdate (fun _ _ => 1) (fun _ _ => 1) (fun _ => 1) c10SacSt) :=
  ⟨by decide,
   C10_sac_alpha_unused Unit 0 0 0 0 0 sacDefaultAlpha false 1 (fun _ => 0) (fun _ => 0)
     (fun _ _ => 1) (fun _ _ => 1) (fun _ => 1) c10SacSt (by decide)⟩

end RLArm
